import Mathlib

/-!
Shallow embedding of `PPlab1_Basharov.py`, a small retail-inventory program:
products, workers, customers, warehouses, orders and a store aggregate, with
JSON and XML exports.

Modelling conventions:
* Python `int` is `Int` (arbitrary precision, may be negative); Python `float`
  prices are modelled as `Rat` (no arithmetic is ever performed on prices in
  the source, they are only stored, compared and serialized).
* A Python method that may `raise` is embedded as a function returning
  `Option StoreError × State`: `(some e, s)` means the call raised `e` and the
  object state `s` is exactly what it was when the exception propagated
  (the source raises before any mutation, so the state is unchanged),
  `(none, s)` means normal return with resulting state `s`.
* `Order` holds its referenced `Customer` and `Product`; the in-place mutation
  `self.product.quantity -= self.quantity` is embedded as returning the order
  with the updated product state.
* File writing is I/O and out of scope; the two exporters are embedded as the
  pure document trees (`JValue`, `XmlElem`) the source serializes.
-/

/-- Embedding of `class Product`: fields `name`, `price`, `quantity`. -/
structure Product where
  name : String
  price : Rat
  quantity : Int
deriving DecidableEq, Repr

/-- Embedding of `class Worker`: fields `name`, `role`. -/
structure Worker where
  name : String
  role : String
deriving DecidableEq, Repr

/-- Embedding of `class Customer`: fields `name`, `email`. -/
structure Customer where
  name : String
  email : String
deriving DecidableEq, Repr

/-- Embedding of the exception taxonomy `StoreError` with its three
subclasses; each carries the message string the source formats. -/
inductive StoreError where
  | ProductNotFoundError (msg : String)
  | InsufficientStockError (msg : String)
  | InvalidOrderError (msg : String)
deriving DecidableEq, Repr

/-- True exactly on the `InvalidOrderError` variant. -/
def StoreError.isInvalidOrderError : StoreError → Bool
  | .InvalidOrderError _ => true
  | _ => false

/-- Embedding of `class Order`: references a customer and a product, with the
requested `quantity`. The `product` field is the current state of the
referenced (shared, mutable) product object. -/
structure Order where
  customer : Customer
  product : Product
  quantity : Int
deriving DecidableEq, Repr

/-- Embedding of `Order.process_order`:
```
if self.quantity > self.product.quantity:
    raise InsufficientStockError(f"Недостаточно товара {self.product.name}")
self.product.quantity -= self.quantity
```
On raise the order (and its product) is returned unchanged; on success the
referenced product quantity is decremented in place. -/
def Order.process_order (o : Order) : Option StoreError × Order :=
  if o.quantity > o.product.quantity then
    (some (StoreError.InsufficientStockError ("Недостаточно товара " ++ o.product.name)), o)
  else
    (none, { o with product := { o.product with quantity := o.product.quantity - o.quantity } })

/-- Embedding of `class Warehouse`: a location plus owned lists of products
and workers, in insertion order. -/
structure Warehouse where
  location : String
  products : List Product
  workers : List Worker
deriving DecidableEq, Repr

/-- Embedding of `Warehouse.add_product`: `self.products.append(product)`. -/
def Warehouse.add_product (w : Warehouse) (p : Product) : Warehouse :=
  { w with products := w.products ++ [p] }

/-- Embedding of `Warehouse.get_products`: `return self.products` (the list of
products as a value; see `WarehouseRef.get_products` for the reference-level
view of the same line). -/
def Warehouse.get_products (w : Warehouse) : List Product :=
  w.products

/-- The `for p in self.products` loop of `Warehouse.update_product`: scan for
the first product whose name matches, set its price and stop; `none` when the
loop falls through without a match. -/
def updateLoop (name : String) (new_price : Rat) : List Product → Option (List Product)
  | [] => none
  | p :: ps =>
    if p.name = name then some ({ p with price := new_price } :: ps)
    else (updateLoop name new_price ps).map (p :: ·)

/-- Embedding of `Warehouse.update_product`:
```
for p in self.products:
    if p.name == name:
        p.price = new_price
        return
raise ProductNotFoundError(f"Товар '{name}' не найден")
``` -/
def Warehouse.update_product (w : Warehouse) (name : String) (new_price : Rat) :
    Option StoreError × Warehouse :=
  match updateLoop name new_price w.products with
  | some ps => (none, { w with products := ps })
  | none => (some (StoreError.ProductNotFoundError ("Товар \x27" ++ name ++ "\x27 не найден")), w)

/-- The `for p in self.products` loop of `Warehouse.remove_product`: find the
first product whose name matches and remove it (`self.products.remove(p)`
removes the first occurrence of the found object, which is exactly that first
matching position); `none` when the loop falls through without a match. -/
def removeLoop (name : String) : List Product → Option (List Product)
  | [] => none
  | p :: ps =>
    if p.name = name then some ps
    else (removeLoop name ps).map (p :: ·)

/-- Embedding of `Warehouse.remove_product`:
```
for p in self.products:
    if p.name == name:
        self.products.remove(p)
        return
raise ProductNotFoundError(f"Товар '{name}' не найден")
``` -/
def Warehouse.remove_product (w : Warehouse) (name : String) :
    Option StoreError × Warehouse :=
  match removeLoop name w.products with
  | some ps => (none, { w with products := ps })
  | none => (some (StoreError.ProductNotFoundError ("Товар \x27" ++ name ++ "\x27 не найден")), w)

/-- Embedding of `Warehouse.add_worker`: `self.workers.append(worker)`. -/
def Warehouse.add_worker (w : Warehouse) (wr : Worker) : Warehouse :=
  { w with workers := w.workers ++ [wr] }

/-- Embedding of `class EStore`: name plus the four owned collections. -/
structure EStore where
  name : String
  warehouses : List Warehouse
  customers : List Customer
  orders : List Order
  workers : List Worker
deriving DecidableEq, Repr

/-- Embedding of `EStore.add_warehouse`: append. -/
def EStore.add_warehouse (s : EStore) (w : Warehouse) : EStore :=
  { s with warehouses := s.warehouses ++ [w] }

/-- Embedding of `EStore.add_customer`: append. -/
def EStore.add_customer (s : EStore) (c : Customer) : EStore :=
  { s with customers := s.customers ++ [c] }

/-- Embedding of `EStore.add_order`: append. -/
def EStore.add_order (s : EStore) (o : Order) : EStore :=
  { s with orders := s.orders ++ [o] }

/-- Embedding of `EStore.add_worker`: append. -/
def EStore.add_worker (s : EStore) (wr : Worker) : EStore :=
  { s with workers := s.workers ++ [wr] }

/-- JSON value trees, as built by `json.dump`: the source only ever produces
strings, numbers (float prices, int quantities), arrays and objects. -/
inductive JValue where
  | str (s : String)
  | num (q : Rat)
  | int (n : Int)
  | arr (xs : List JValue)
  | obj (fields : List (String × JValue))

/-- Embedding of the `data` dictionary built by `EStore.save_to_json` (the
actual file write is I/O and out of scope): top-level fields `name`,
`warehouses` (each with `location`, `products`, `workers`), `customers`,
`orders`; orders are serialized through `o.customer.name` and
`o.product.name`. -/
def EStore.save_to_json (s : EStore) : JValue :=
  .obj
    [("name", .str s.name),
     ("warehouses", .arr (s.warehouses.map fun w =>
        .obj
          [("location", .str w.location),
           ("products", .arr (w.products.map fun p =>
              .obj [("name", .str p.name), ("price", .num p.price),
                    ("quantity", .int p.quantity)])),
           ("workers", .arr (w.workers.map fun wr =>
              .obj [("name", .str wr.name), ("role", .str wr.role)]))])),
     ("customers", .arr (s.customers.map fun c =>
        .obj [("name", .str c.name), ("email", .str c.email)])),
     ("orders", .arr (s.orders.map fun o =>
        .obj [("customer", .str o.customer.name), ("product", .str o.product.name),
              ("quantity", .int o.quantity)]))]

/-- XML element trees, as built with `xml.etree.ElementTree`: a tag, an
attribute list, and child elements (the source never sets element text). -/
structure XmlElem where
  tag : String
  attrs : List (String × String)
  children : List XmlElem

/-- Embedding of the element tree built by `EStore.save_to_xml` (declaration
header and file write are I/O and out of scope): root `estore` element with
the store name as attribute, one `warehouse` child per warehouse with its
location as attribute, one `product` grandchild per product with name, price
and quantity rendered as decimal-text attributes. Workers, customers and
orders do not appear. -/
def EStore.save_to_xml (s : EStore) : XmlElem :=
  { tag := "estore"
    attrs := [("name", s.name)]
    children := s.warehouses.map fun w =>
      { tag := "warehouse"
        attrs := [("location", w.location)]
        children := w.products.map fun p =>
          { tag := "product"
            attrs := [("name", p.name), ("price", toString p.price),
                      ("quantity", toString p.quantity)]
            children := [] } } }

/-- A Python list value is a reference into a heap of list contents;
`PHeap` maps such references to the product lists they hold. Used to state
aliasing facts about `get_products`. -/
def PHeap : Type := Nat → List Product

/-- Overwrite the list held at reference `r` (the effect of an in-place list
mutation performed through any alias of `r`). -/
def PHeap.set (h : PHeap) (r : Nat) (v : List Product) : PHeap :=
  fun i => if i = r then v else h i

/-- Reference-level view of a `Warehouse`: its `self.products` attribute is a
reference to a heap-allocated list. -/
structure WarehouseRef where
  location : String
  productsRef : Nat

/-- Embedding of `Warehouse.get_products` at the reference level:
`return self.products` hands back the very reference stored in the warehouse,
allocating nothing and leaving the heap untouched (no copy is made). -/
def WarehouseRef.get_products (h : PHeap) (w : WarehouseRef) : PHeap × Nat :=
  (h, w.productsRef)

/-- Concrete heap for examples: every reference holds the one-laptop list. -/
def heap1 : PHeap :=
  fun _ => [⟨"Ноутбук", 75000, 10⟩]

/-- Concrete warehouse reference for examples: its products live at heap
reference 0. -/
def wref0 : WarehouseRef :=
  ⟨"Москва", 0⟩

/-- Helper: closed-form characterization of `process_order`, by the two
branches of the source's stock check. -/
theorem process_order_eq (o : Order) :
    o.process_order =
      if o.quantity ≤ o.product.quantity then
        (none, { o with product := { o.product with quantity := o.product.quantity - o.quantity } })
      else
        (some (StoreError.InsufficientStockError ("Недостаточно товара " ++ o.product.name)), o) := by
  unfold Order.process_order
  rcases le_or_lt o.quantity o.product.quantity with h | h
  · rw [if_neg (not_lt.mpr h), if_pos h]
  · rw [if_pos h, if_neg (not_le.mpr h)]

/-- C1: for an order requesting `q` of a product holding `s`: if `q ≤ s` the
call succeeds (no exception) and the product quantity becomes exactly `s - q`;
if `q > s` it raises `InsufficientStockError` carrying the product name and
the product (indeed the whole order state) is left unchanged. -/
theorem process_order_spec (o : Order) :
    o.process_order =
      if o.quantity ≤ o.product.quantity then
        (none, { o with product := { o.product with quantity := o.product.quantity - o.quantity } })
      else
        (some (StoreError.InsufficientStockError ("Недостаточно товара " ++ o.product.name)), o) :=
  process_order_eq o

/-- C4 counterexample: the claim quantifies over every order with `2q ≤ s`
only; at `q = -5`, `s = -8` we have `2q ≤ s` yet the very first invocation of
`process_order` already raises (since `-5 > -8`), so it is false that invoking
it twice succeeds both times. -/
theorem process_order_twice_counterexample :
    2 * (Order.mk ⟨"Петр", "petr@mail.ru"⟩ ⟨"Ноутбук", 1, -8⟩ (-5)).quantity ≤
        (Order.mk ⟨"Петр", "petr@mail.ru"⟩ ⟨"Ноутбук", 1, -8⟩ (-5)).product.quantity ∧
      ((Order.mk ⟨"Петр", "petr@mail.ru"⟩ ⟨"Ноутбук", 1, -8⟩ (-5)).process_order).1.isSome
        = true := by
  decide

/-- C4 (amended): `process_order` is not idempotent. For an order requesting
`q` of a product holding `s`, when `q ≤ s` and `2q ≤ s` both invocations
succeed and the second decrements the stock again: the final quantity is
`s - 2q`, with no guard against re-fulfillment. -/
theorem process_order_twice (o : Order) (h1 : o.quantity ≤ o.product.quantity)
    (h2 : 2 * o.quantity ≤ o.product.quantity) :
    (o.process_order).1 = none ∧
    ((o.process_order).2.process_order).1 = none ∧
    ((o.process_order).2.process_order).2.product.quantity
      = o.product.quantity - 2 * o.quantity := by
  rw [process_order_eq o, if_pos h1]
  have e2 := process_order_eq
    ({ o with product := { o.product with quantity := o.product.quantity - o.quantity } } : Order)
  rw [if_pos (by simpa using by omega : _)] at e2
  refine ⟨rfl, ?_, ?_⟩
  · rw [show ((none, { o with product := { o.product with quantity := o.product.quantity - o.quantity } }) : Option StoreError × Order).2 = { o with product := { o.product with quantity := o.product.quantity - o.quantity } } from rfl, e2]
  · rw [show ((none, { o with product := { o.product with quantity := o.product.quantity - o.quantity } }) : Option StoreError × Order).2 = { o with product := { o.product with quantity := o.product.quantity - o.quantity } } from rfl, e2]
    show o.product.quantity - o.quantity - o.quantity = o.product.quantity - 2 * o.quantity
    omega

/-- C4 witness: a concrete run with `q = 2`, `s = 10`: both invocations
succeed and the stock ends at `6 = 10 - 2·2`. -/
theorem process_order_twice_witness :
    (((Order.mk ⟨"Петр", "petr@mail.ru"⟩ ⟨"Ноутбук", 75000, 10⟩ 2).process_order).1 = none ∧
      (((Order.mk ⟨"Петр", "petr@mail.ru"⟩ ⟨"Ноутбук", 75000, 10⟩ 2).process_order).2.process_order).1 = none ∧
      (((Order.mk ⟨"Петр", "petr@mail.ru"⟩ ⟨"Ноутбук", 75000, 10⟩ 2).process_order).2.process_order).2.product.quantity
        = (10:Int) - 2 * 2) :=
  process_order_twice (Order.mk ⟨"Петр", "petr@mail.ru"⟩ ⟨"Ноутбук", 75000, 10⟩ 2)
    (by decide) (by decide)

/-- C5: fulfillment never drives stock negative: if the referenced product's
quantity is nonnegative before `process_order`, it is still nonnegative
afterwards, whether the call succeeds or raises. -/
theorem process_order_nonneg (o : Order) (hs : 0 ≤ o.product.quantity) :
    0 ≤ (o.process_order).2.product.quantity := by
  rw [process_order_eq o]
  rcases le_or_lt o.quantity o.product.quantity with h | h
  · rw [if_pos h]
    show 0 ≤ o.product.quantity - o.quantity
    omega
  · rw [if_neg (not_le.mpr h)]
    exact hs

/-- C5 witness: the failing concrete scenario (request 11 of a stock of 10)
still leaves a nonnegative quantity. -/
theorem process_order_nonneg_witness :
    0 ≤ ((Order.mk ⟨"Петр", "petr@mail.ru"⟩ ⟨"Ноутбук", 75000, 10⟩ 11).process_order).2.product.quantity :=
  process_order_nonneg (Order.mk ⟨"Петр", "petr@mail.ru"⟩ ⟨"Ноутбук", 75000, 10⟩ 11)
    (by decide)

/-- C10: neither the `Order` constructor nor `process_order` validates
positivity of the requested quantity. For a product holding `s ≥ 0`: an order
of quantity `0` is processed successfully and leaves the stock at `s`; an
order of negative quantity is processed successfully and leaves the stock at
`s - q`, strictly greater than `s`. -/
theorem process_order_no_validation (o : Order) (hs : 0 ≤ o.product.quantity) :
    (o.quantity = 0 →
      (o.process_order).1 = none ∧
      (o.process_order).2.product.quantity = o.product.quantity) ∧
    (o.quantity < 0 →
      (o.process_order).1 = none ∧
      (o.process_order).2.product.quantity = o.product.quantity - o.quantity ∧
      o.product.quantity < (o.process_order).2.product.quantity) := by
  constructor
  · intro h0
    rw [process_order_eq o, if_pos (by omega)]
    refine ⟨rfl, ?_⟩
    show o.product.quantity - o.quantity = o.product.quantity
    omega
  · intro hneg
    rw [process_order_eq o, if_pos (by omega)]
    refine ⟨rfl, rfl, ?_⟩
    show o.product.quantity < o.product.quantity - o.quantity
    omega

/-- C10 witness: a zero-quantity order leaves the stock of 10 at 10; an order
of quantity `-3` succeeds and raises the stock of 10 to 13. -/
theorem process_order_no_validation_witness :
    (((Order.mk ⟨"Петр", "petr@mail.ru"⟩ ⟨"Ноутбук", 75000, 10⟩ 0).process_order).1 = none ∧
      ((Order.mk ⟨"Петр", "petr@mail.ru"⟩ ⟨"Ноутбук", 75000, 10⟩ 0).process_order).2.product.quantity = 10) ∧
    (((Order.mk ⟨"Петр", "petr@mail.ru"⟩ ⟨"Ноутбук", 75000, 10⟩ (-3)).process_order).1 = none ∧
      (10:Int) < ((Order.mk ⟨"Петр", "petr@mail.ru"⟩ ⟨"Ноутбук", 75000, 10⟩ (-3)).process_order).2.product.quantity) := by
  have hz := (process_order_no_validation
    (Order.mk ⟨"Петр", "petr@mail.ru"⟩ ⟨"Ноутбук", 75000, 10⟩ 0) (by decide)).1 rfl
  have hn := (process_order_no_validation
    (Order.mk ⟨"Петр", "petr@mail.ru"⟩ ⟨"Ноутбук", 75000, 10⟩ (-3)) (by decide)).2 (by decide)
  exact ⟨⟨hz.1, hz.2⟩, ⟨hn.1, hn.2.2⟩⟩

/-- Helper: the update loop on a list whose first name-match is `p` (no match
in the prefix `l₁`) updates exactly `p`'s price and keeps everything else. -/
theorem updateLoop_first (name : String) (x : Rat) (l₁ : List Product) (p : Product)
    (l₂ : List Product) (hmem : ∀ q ∈ l₁, q.name ≠ name) (hp : p.name = name) :
    updateLoop name x (l₁ ++ p :: l₂) = some (l₁ ++ { p with price := x } :: l₂) := by
  induction l₁ with
  | nil => simp [updateLoop, hp]
  | cons a l ih =>
    have ha : a.name ≠ name := hmem a (by simp)
    simp [updateLoop, ha, ih (fun q hq => hmem q (by simp [hq]))]

/-- Helper: the update loop falls through on a list with no name-match. -/
theorem updateLoop_none (name : String) (x : Rat) (l : List Product)
    (h : ∀ q ∈ l, q.name ≠ name) : updateLoop name x l = none := by
  induction l with
  | nil => rfl
  | cons a l ih =>
    simp [updateLoop, h a (by simp), ih (fun q hq => h q (by simp [hq]))]

/-- C2: `update_product name x` sets the price of the first product whose name
matches (the record update touches only `price`, so that product's quantity
and all other products are unchanged); when no product in the whole collection
matches, it raises `ProductNotFoundError` and the warehouse is unchanged. -/
theorem update_product_spec (w : Warehouse) (name : String) (x : Rat) :
    (∀ l₁ p l₂, w.products = l₁ ++ p :: l₂ → p.name = name → (∀ q ∈ l₁, q.name ≠ name) →
      w.update_product name x
        = (none, { w with products := l₁ ++ { p with price := x } :: l₂ })) ∧
    ((∀ p ∈ w.products, p.name ≠ name) →
      w.update_product name x
        = (some (StoreError.ProductNotFoundError ("Товар \x27" ++ name ++ "\x27 не найден")), w)) := by
  constructor
  · intro l₁ p l₂ hsplit hp hmem
    unfold Warehouse.update_product
    rw [hsplit, updateLoop_first name x l₁ p l₂ hmem hp]
  · intro hall
    unfold Warehouse.update_product
    rw [updateLoop_none name x w.products hall]

/-- C2 witness: updating the only product's price succeeds and keeps its
quantity; updating an absent name raises not-found and changes nothing. -/
theorem update_product_spec_witness :
    (Warehouse.mk "Москва" [⟨"Ноутбук", 75000, 10⟩] []).update_product "Ноутбук" 80000
      = (none, Warehouse.mk "Москва" [⟨"Ноутбук", 80000, 10⟩] []) ∧
    (Warehouse.mk "Москва" [⟨"Ноутбук", 75000, 10⟩] []).update_product "Смартфон" 80000
      = (some (StoreError.ProductNotFoundError ("Товар \x27Смартфон\x27 не найден")),
          Warehouse.mk "Москва" [⟨"Ноутбук", 75000, 10⟩] []) := by
  constructor
  · exact (update_product_spec (Warehouse.mk "Москва" [⟨"Ноутбук", 75000, 10⟩] [])
      "Ноутбук" 80000).1 [] ⟨"Ноутбук", 75000, 10⟩ [] rfl rfl (by simp)
  · exact (update_product_spec (Warehouse.mk "Москва" [⟨"Ноутбук", 75000, 10⟩] [])
      "Смартфон" 80000).2 (by decide)

/-- Helper: the remove loop on a list whose first name-match is `p` (no match
in the prefix `l₁`) removes exactly `p`, keeping the rest in order. -/
theorem removeLoop_first (name : String) (l₁ : List Product) (p : Product)
    (l₂ : List Product) (hmem : ∀ q ∈ l₁, q.name ≠ name) (hp : p.name = name) :
    removeLoop name (l₁ ++ p :: l₂) = some (l₁ ++ l₂) := by
  induction l₁ with
  | nil => simp [removeLoop, hp]
  | cons a l ih =>
    have ha : a.name ≠ name := hmem a (by simp)
    simp [removeLoop, ha, ih (fun q hq => hmem q (by simp [hq]))]

/-- Helper: the remove loop falls through on a list with no name-match. -/
theorem removeLoop_none (name : String) (l : List Product)
    (h : ∀ q ∈ l, q.name ≠ name) : removeLoop name l = none := by
  induction l with
  | nil => rfl
  | cons a l ih =>
    simp [removeLoop, h a (by simp), ih (fun q hq => h q (by simp [hq]))]

/-- C3: `remove_product name` removes exactly the first product whose name
matches, leaving the remaining products in their original order; when no
product matches, it raises `ProductNotFoundError` and the product collection
(in particular its length) is unchanged. -/
theorem remove_product_spec (w : Warehouse) (name : String) :
    (∀ l₁ p l₂, w.products = l₁ ++ p :: l₂ → p.name = name → (∀ q ∈ l₁, q.name ≠ name) →
      w.remove_product name = (none, { w with products := l₁ ++ l₂ })) ∧
    ((∀ p ∈ w.products, p.name ≠ name) →
      w.remove_product name
        = (some (StoreError.ProductNotFoundError ("Товар \x27" ++ name ++ "\x27 не найден")), w)
        ∧ (w.remove_product name).2.products.length = w.products.length) := by
  constructor
  · intro l₁ p l₂ hsplit hp hmem
    unfold Warehouse.remove_product
    rw [hsplit, removeLoop_first name l₁ p l₂ hmem hp]
  · intro hall
    unfold Warehouse.remove_product
    rw [removeLoop_none name w.products hall]
    exact ⟨rfl, rfl⟩

/-- C3 witness: the spec scenario — removing an absent name from a warehouse
holding only one product raises not-found and leaves the collection length
unchanged; removing the present name removes exactly it. -/
theorem remove_product_spec_witness :
    (Warehouse.mk "Москва" [⟨"Ноутбук", 75000, 10⟩] []).remove_product "Смартфон"
      = (some (StoreError.ProductNotFoundError ("Товар \x27Смартфон\x27 не найден")),
          Warehouse.mk "Москва" [⟨"Ноутбук", 75000, 10⟩] []) ∧
    ((Warehouse.mk "Москва" [⟨"Ноутбук", 75000, 10⟩] []).remove_product "Смартфон").2.products.length = 1 ∧
    (Warehouse.mk "Москва" [⟨"Ноутбук", 75000, 10⟩] []).remove_product "Ноутбук"
      = (none, Warehouse.mk "Москва" [] []) := by
  have h := (remove_product_spec (Warehouse.mk "Москва" [⟨"Ноутбук", 75000, 10⟩] [])
    "Смартфон").2 (by decide)
  refine ⟨h.1, h.2, ?_⟩
  exact (remove_product_spec (Warehouse.mk "Москва" [⟨"Ноутбук", 75000, 10⟩] [])
    "Ноутбук").1 [] ⟨"Ноутбук", 75000, 10⟩ [] rfl rfl (by simp)

/-- C8: no operation ever raises `InvalidOrderError`. The three fallible
operations (`update_product`, `remove_product`, `process_order`) only ever
produce `ProductNotFoundError` or `InsufficientStockError`; every other
operation (`add_*`, `get_products`, the two exporters) is a total function
returning a plain value in this embedding and cannot raise at all. -/
theorem no_invalid_order_error (w : Warehouse) (n : String) (x : Rat) (o : Order) :
    ((w.update_product n x).1.all fun e => !e.isInvalidOrderError) = true ∧
    ((w.remove_product n).1.all fun e => !e.isInvalidOrderError) = true ∧
    ((o.process_order).1.all fun e => !e.isInvalidOrderError) = true := by
  refine ⟨?_, ?_, ?_⟩
  · unfold Warehouse.update_product
    rcases updateLoop n x w.products with _ | ps <;> rfl
  · unfold Warehouse.remove_product
    rcases removeLoop n w.products with _ | ps <;> rfl
  · unfold Order.process_order
    split <;> rfl

/-- C6: the markup export of any store is exactly a root `estore` element
carrying the store name as its only attribute, one `warehouse` child per
warehouse carrying its location as its only attribute, and one `product`
grandchild per product carrying name, price and quantity (the numbers as
decimal text) as its attributes and nothing below; and the document is
completely independent of the store's customers, orders and workers and of
every warehouse's workers — none of them is represented. -/
theorem save_to_xml_spec (s : EStore) :
    (s.save_to_xml).tag = "estore" ∧
    (s.save_to_xml).attrs = [("name", s.name)] ∧
    List.Forall₂ (fun (w : Warehouse) (e : XmlElem) =>
        e.tag = "warehouse" ∧ e.attrs = [("location", w.location)] ∧
        List.Forall₂ (fun (p : Product) (pe : XmlElem) =>
            pe.tag = "product" ∧
            pe.attrs = [("name", p.name), ("price", toString p.price),
                        ("quantity", toString p.quantity)] ∧
            pe.children = [])
          w.products e.children)
      s.warehouses (s.save_to_xml).children ∧
    (∀ (cs : List Customer) (os : List Order) (ws : List Worker)
        (f : Warehouse → List Worker),
      EStore.save_to_xml
          ⟨s.name, s.warehouses.map (fun w => { w with workers := f w }), cs, os, ws⟩
        = s.save_to_xml) := by
  refine ⟨rfl, rfl, ?_, ?_⟩
  · unfold EStore.save_to_xml
    simp only [List.forall₂_map_right_iff, List.forall₂_same]
    simp
  · intro cs os ws f
    unfold EStore.save_to_xml
    simp only [List.map_map]
    rfl

/-- C7: the record export of any store is an object with exactly the fields
`name`, `warehouses`, `customers`, `orders`; the warehouses array has one
entry per warehouse (length `N`), each an object with exactly `location`,
`products` (length `M`, each product an object with exactly the source
product's `name`, `price`, `quantity`) and `workers` (each with `name`,
`role`); customers are `{name, email}`; and each order is serialized as
`{customer, product, quantity}` where the `customer` and `product` fields
hold only the referenced objects' names. -/
theorem save_to_json_spec (s : EStore) :
    ∃ lw lc lo,
      s.save_to_json
          = JValue.obj
              [("name", .str s.name), ("warehouses", .arr lw),
               ("customers", .arr lc), ("orders", .arr lo)] ∧
      lw.length = s.warehouses.length ∧
      List.Forall₂ (fun (w : Warehouse) (jw : JValue) =>
          ∃ lp lk,
            jw = JValue.obj
                [("location", .str w.location), ("products", .arr lp),
                 ("workers", .arr lk)] ∧
            lp.length = w.products.length ∧
            List.Forall₂ (fun (p : Product) (jp : JValue) =>
                jp = JValue.obj
                  [("name", .str p.name), ("price", .num p.price),
                   ("quantity", .int p.quantity)]) w.products lp ∧
            List.Forall₂ (fun (wr : Worker) (jk : JValue) =>
                jk = JValue.obj [("name", .str wr.name), ("role", .str wr.role)])
              w.workers lk)
        s.warehouses lw ∧
      List.Forall₂ (fun (c : Customer) (jc : JValue) =>
          jc = JValue.obj [("name", .str c.name), ("email", .str c.email)])
        s.customers lc ∧
      List.Forall₂ (fun (o : Order) (jo : JValue) =>
          jo = JValue.obj
            [("customer", .str o.customer.name), ("product", .str o.product.name),
             ("quantity", .int o.quantity)]) s.orders lo := by
  refine ⟨_, _, _, rfl, by simp, ?_, ?_, ?_⟩
  · simp only [List.forall₂_map_right_iff, List.forall₂_same]
    intro w _
    refine ⟨_, _, rfl, by simp, ?_, ?_⟩ <;>
      simp [List.forall₂_map_right_iff, List.forall₂_same]
  · simp [List.forall₂_map_right_iff, List.forall₂_same]
  · simp [List.forall₂_map_right_iff, List.forall₂_same]

/-- C9 counterexample: mutating the view returned by `get_products` does
mutate the warehouse's own product collection. `return self.products` hands
back the warehouse's list reference itself; appending a second product
through that returned reference changes what the warehouse's `productsRef`
holds (it is no longer the original one-laptop list), refuting the claim's
requirement that mutating the returned view must not mutate the warehouse's
collection. -/
theorem get_products_view_counterexample :
    PHeap.set (WarehouseRef.get_products heap1 wref0).1
        (WarehouseRef.get_products heap1 wref0).2
        (heap1 (WarehouseRef.get_products heap1 wref0).2 ++ [⟨"Смартфон", 45000, 15⟩])
        wref0.productsRef
      ≠ heap1 wref0.productsRef := by
  decide

/-- C9 (amended): `get_products` returns the current ordered sequence of
products (exactly the warehouse's list, in insertion order, so it reflects
every add, update and removal performed so far), but as the warehouse's own
list reference rather than a copy: it allocates nothing and leaves the heap
untouched, so an in-place mutation performed through the returned view lands
on the warehouse's own product collection. -/
theorem get_products_alias_spec :
    (∀ (w : Warehouse), w.get_products = w.products) ∧
    (∀ (w : Warehouse) (p : Product),
      (w.add_product p).get_products = w.get_products ++ [p]) ∧
    (∀ (h : PHeap) (w : WarehouseRef), w.get_products h = (h, w.productsRef)) ∧
    (∀ (h : PHeap) (w : WarehouseRef) (v : List Product),
      PHeap.set (w.get_products h).1 (w.get_products h).2 v w.productsRef = v) := by
  refine ⟨fun w => rfl, fun w p => rfl, fun h w => rfl, fun h w v => ?_⟩
  show PHeap.set h w.productsRef v w.productsRef = v
  unfold PHeap.set
  simp
